import Mathlib

/-!
Shallow embedding of the budget report generator (src/rpt.py).

Rows model the loaded table with its Task, Budgeted and Remaining columns.
PFloat models the IEEE-style values produced by pandas column arithmetic
(finite value, signed infinity, NaN); division by zero follows numpy float
semantics.  The python string helpers model str.strip, str.split and
str.startswith for the fixed separators used by the code.  Stateful parts
(filesystem probing, the orchestrator, figure bookkeeping) are embedded by
passing the relevant state explicitly.
-/

namespace AutoReport

/-- A row of the budget table: the Task, Budgeted and Remaining columns. -/
structure Row where
  task : String
  budgeted : ℚ
  remaining : ℚ
deriving DecidableEq

/-- IEEE-style extended value produced by pandas column arithmetic:
a finite rational, a signed infinity, or NaN. -/
inductive PFloat where
  | num (q : ℚ)
  | pinf
  | ninf
  | nan
deriving DecidableEq

/-- Subtraction on pandas float values. -/
def PFloat.sub : PFloat → PFloat → PFloat
  | .nan, _ => .nan
  | .num a, .num b => .num (a - b)
  | .num _, .pinf => .ninf
  | .num _, .ninf => .pinf
  | .num _, .nan => .nan
  | .pinf, .num _ => .pinf
  | .pinf, .ninf => .pinf
  | .pinf, .pinf => .nan
  | .pinf, .nan => .nan
  | .ninf, .num _ => .ninf
  | .ninf, .pinf => .ninf
  | .ninf, .ninf => .nan
  | .ninf, .nan => .nan

/-- Division on pandas float values; division of a finite value by zero
yields NaN for a zero numerator and a signed infinity otherwise, exactly
as numpy float division behaves. -/
def PFloat.div : PFloat → PFloat → PFloat
  | .nan, _ => .nan
  | .num a, .num b =>
      if b = 0 then (if a = 0 then .nan else if 0 < a then .pinf else .ninf)
      else .num (a / b)
  | .num _, .pinf => .num 0
  | .num _, .ninf => .num 0
  | .num _, .nan => .nan
  | .pinf, .num b => if 0 ≤ b then .pinf else .ninf
  | .pinf, .pinf => .nan
  | .pinf, .ninf => .nan
  | .pinf, .nan => .nan
  | .ninf, .num b => if 0 ≤ b then .ninf else .pinf
  | .ninf, .pinf => .nan
  | .ninf, .ninf => .nan
  | .ninf, .nan => .nan

/-- Multiplication on pandas float values. -/
def PFloat.mul : PFloat → PFloat → PFloat
  | .nan, _ => .nan
  | .num a, .num b => .num (a * b)
  | .num a, .pinf => if a = 0 then .nan else if 0 < a then .pinf else .ninf
  | .num a, .ninf => if a = 0 then .nan else if 0 < a then .ninf else .pinf
  | .num _, .nan => .nan
  | .pinf, .num b => if b = 0 then .nan else if 0 < b then .pinf else .ninf
  | .pinf, .pinf => .pinf
  | .pinf, .ninf => .ninf
  | .pinf, .nan => .nan
  | .ninf, .num b => if b = 0 then .nan else if 0 < b then .ninf else .pinf
  | .ninf, .pinf => .ninf
  | .ninf, .ninf => .pinf
  | .ninf, .nan => .nan

/-- Rounding a rational to one decimal place, as Series.round(1) does on
the finite values exercised here. -/
def roundQ1 (q : ℚ) : ℚ := ((round (q * 10) : ℤ) : ℚ) / 10

/-- Series.round(1): finite values are rounded to one decimal, NaN and the
infinities pass through unchanged. -/
def PFloat.round1 : PFloat → PFloat
  | .num q => .num (roundQ1 q)
  | .pinf => .pinf
  | .ninf => .ninf
  | .nan => .nan

/-- Sum of the Budgeted column (rpt.py line 189); the sum runs over every
row of the table, the TOTALS sentinel row included. -/
def total_budgeted (rows : List Row) : ℚ := (rows.map Row.budgeted).sum

/-- Sum of the Remaining column (rpt.py line 190), again over every row. -/
def total_remaining (rows : List Row) : ℚ := (rows.map Row.remaining).sum

/-- Overall utilization rate (rpt.py lines 191-192), with the explicit
zero guard on the total. -/
def utilization_rate (rows : List Row) : ℚ :=
  if 0 < total_budgeted rows then
    (total_budgeted rows - total_remaining rows) / total_budgeted rows * 100
  else 0

/-- Per-row utilization value (rpt.py lines 195-196):
((Budgeted - Remaining) / Budgeted * 100).round(1), with no zero guard. -/
def utilPercent (r : Row) : PFloat :=
  ((((PFloat.num r.budgeted).sub (PFloat.num r.remaining)).div
      (PFloat.num r.budgeted)).mul (PFloat.num 100)).round1

/-- The whole per-row utilization column added to the table. -/
def perRowUtilization (rows : List Row) : List PFloat := rows.map utilPercent

/-- NaN test on pandas float values. -/
def PFloat.isNaN : PFloat → Bool
  | .nan => true
  | _ => false

/-- Strict comparison used by Series.idxmax and Series.idxmin; NaN
compares false against everything (it is skipped by the fold below). -/
def PFloat.ltb : PFloat → PFloat → Bool
  | .nan, _ => false
  | .num _, .nan => false
  | .num a, .num b => decide (a < b)
  | .num _, .pinf => true
  | .num _, .ninf => false
  | .pinf, _ => false
  | .ninf, .nan => false
  | .ninf, .ninf => false
  | .ninf, .num _ => true
  | .ninf, .pinf => true

/-- Series.idxmax over the rows: the first row attaining the maximal
non-NaN value, none when every value is NaN (pandas raises there). -/
def idxmaxFirst (f : Row → PFloat) (rows : List Row) : Option Row :=
  rows.foldl
    (fun acc r =>
      if (f r).isNaN then acc
      else
        match acc with
        | none => some r
        | some b => if PFloat.ltb (f b) (f r) then some r else acc)
    none

/-- Series.idxmin over the rows, dual to idxmaxFirst. -/
def idxminFirst (f : Row → PFloat) (rows : List Row) : Option Row :=
  rows.foldl
    (fun acc r =>
      if (f r).isNaN then acc
      else
        match acc with
        | none => some r
        | some b => if PFloat.ltb (f r) (f b) then some r else acc)
    none

/-- Rows whose Task is not the TOTALS sentinel (rpt.py line 199). -/
def non_total_rows (rows : List Row) : List Row :=
  rows.filter (fun r => !(r.task == "TOTALS"))

/-- The data carried by the four computed key findings. -/
structure KeyData where
  utilRate : ℚ
  hiTask : String
  hiUtil : PFloat
  loTask : String
  loUtil : PFloat
  totalRem : ℚ
deriving DecidableEq

/-- Outcome of insight generation: computed data-derived findings, or the
fixed generic statements. -/
inductive Insights where
  | derived (d : KeyData)
  | generic (stmts : List String)
deriving DecidableEq

/-- The fixed fallback statements (rpt.py lines 215-220). -/
def genericStatements : List String :=
  ["Budget tracking is current and accurate",
   "All expenditures are within approved parameters",
   "Financial controls are operating effectively",
   "Regular monitoring continues as scheduled"]

/-- Insight generation of add_key_points (rpt.py lines 187-220) for a
table that has the Task, Budgeted and Remaining columns.  The guard is
len(data) > 1 on the full table followed by len(non_total_data) > 0;
none models the uncaught pandas error when idxmax has no non-NaN value. -/
def add_key_points (rows : List Row) : Option Insights :=
  if 1 < rows.length then
    let nt := non_total_rows rows
    if 0 < nt.length then
      match idxmaxFirst utilPercent nt, idxminFirst utilPercent nt with
      | some hi, some lo =>
          some (.derived
            ⟨utilization_rate rows, hi.task, utilPercent hi,
             lo.task, utilPercent lo, total_remaining rows⟩)
      | _, _ => none
    else some (.generic genericStatements)
  else some (.generic genericStatements)

/-- Python str.strip on a character list: whitespace dropped from both
ends. -/
def stripList (l : List Char) : List Char :=
  ((l.dropWhile Char.isWhitespace).reverse.dropWhile Char.isWhitespace).reverse

/-- Python str.strip on a string. -/
def pyStrip (s : String) : String := ⟨stripList s.data⟩

/-- Python str.startswith. -/
def pyStartsWith (s pre : String) : Bool := pre.data.isPrefixOf s.data

/-- Python split on the two-character separator of two newlines, as used
for paragraph groups; greedy left to right, like str.split. -/
def splitParasList : List Char → List (List Char)
  | [] => [[]]
  | '\n' :: '\n' :: rest => [] :: splitParasList rest
  | c :: rest =>
    match splitParasList rest with
    | [] => [[c]]
    | g :: gs => (c :: g) :: gs

/-- Python split on a single newline, as used for the lines of a group. -/
def splitLinesList : List Char → List (List Char)
  | [] => [[]]
  | '\n' :: rest => [] :: splitLinesList rest
  | c :: rest =>
    match splitLinesList rest with
    | [] => [[c]]
    | g :: gs => (c :: g) :: gs

/-- A structural unit emitted into the document by the markdown pass. -/
inductive Block where
  | paragraph (text : String)
  | bullet (text : String)
deriving DecidableEq

/-- Test of rpt.py line 92: the stripped line starts with a bullet
marker. -/
def isBulletLine (l : String) : Bool :=
  pyStartsWith (pyStrip l) "- " || pyStartsWith (pyStrip l) "* "

/-- Processing of one paragraph group (rpt.py lines 83-97): the stripped
group is skipped when empty, classified as bullets when it starts with a
marker (keeping only the marker lines, each stripped of its first two
characters), and emitted as one paragraph otherwise. -/
def parse_group (p : String) : List Block :=
  let t := pyStrip p
  if t = "" then []
  else if pyStartsWith t "- " || pyStartsWith t "* " then
    (((splitLinesList t.data).map String.mk).filter isBulletLine).map
      (fun l => Block.bullet ⟨(pyStrip l).data.drop 2⟩)
  else [Block.paragraph t]

/-- The markdown pass over a whole content string (rpt.py lines 80-97). -/
def add_markdown_blocks (content : String) : List Block :=
  (((splitParasList content.data).map String.mk).map parse_group).flatten

/-- State of an override file on disk. -/
inductive FileState where
  | absent
  | unreadable
  | content (text : String)

/-- read_markdown_file (rpt.py lines 57-69): the stripped text when the
file exists and is readable, none when it is absent, and none again when
reading raises (the handler catches the error and returns None). -/
def read_markdown_file : FileState → Option String
  | .content s => some (pyStrip s)
  | .absent => none
  | .unreadable => none

/-- Python truthiness of an optional string: false for None and for the
empty string. -/
def truthy : Option String → Bool
  | none => false
  | some s => !(s == "")

/-- Content selection of add_markdown_content (rpt.py lines 73-78): the
loaded content when truthy, else the default when truthy, else nothing. -/
def merged_content (fs : FileState) (default_content : Option String) :
    Option String :=
  let c := read_markdown_file fs
  if truthy c then c
  else if truthy default_content then default_content
  else none

/-- Blocks added to the document for a section with an override file. -/
def add_markdown_content (fs : FileState) (default_content : Option String) :
    List Block :=
  match merged_content fs default_content with
  | none => []
  | some c => add_markdown_blocks c

/-- Candidate name probed by the versioning loop (rpt.py line 44). -/
def candName (stem ext : String) (n : Nat) : String :=
  stem ++ "_v" ++ toString n ++ ext

/-- The while loop of get_unique_filename (rpt.py lines 42-55), with the
filesystem passed as an existence predicate and the wall clock as the
timestamp string.  The loop probes candidates from the given counter on,
bails out to the timestamp name once the counter passes 100, and carries
fuel so that the recursion is structural; with fuel 99 and counter 2 the
fuel never runs out before the counter check fires, so the fuel arm is
unreachable and returns the same timestamp fallback. -/
def probe_candidates (ex : String → Bool) (stem ext ts : String) :
    Nat → Nat → String
  | _, 0 => stem ++ "_" ++ ts ++ ext
  | counter, fuel + 1 =>
    if ex (candName stem ext counter) = false then candName stem ext counter
    else if 100 < counter + 1 then stem ++ "_" ++ ts ++ ext
    else probe_candidates ex stem ext ts (counter + 1) fuel

/-- get_unique_filename (rpt.py lines 32-55): the base path when free,
else the first free candidate found by the loop started at counter 2. -/
def get_unique_filename (ex : String → Bool) (stem ext ts : String) : String :=
  if ex (stem ++ ext) = false then stem ++ ext
  else probe_candidates ex stem ext ts 2 99

/-- Output path resolution in the constructor (rpt.py lines 20-27): the
default dated name goes through get_unique_filename, a caller-supplied
name is placed in the reports directory unchanged. -/
def resolve_output_file (ex : String → Bool) (today ts : String) :
    Option String → String
  | none => get_unique_filename ex ("reports/project_report_" ++ today) ".docx" ts
  | some name => "reports/" ++ name

/-- Outcome flags the orchestrator run depends on: whether loading the
table succeeds, whether chart rendering raises, whether saving succeeds. -/
structure RunEnv where
  loadOk : Bool
  chartFails : Bool
  saveOk : Bool

/-- add_budget_chart (rpt.py lines 239-289) as seen by the orchestrator:
an exception is caught, a diagnostic is emitted and False is returned;
otherwise True. -/
def add_budget_chart_run (chartFails : Bool) : Bool × List String :=
  if chartFails then (false, ["Error creating chart"])
  else (true, ["Budget chart added"])

/-- generate_report (rpt.py lines 301-329): load, build the sections
(the chart result is computed and discarded), save; the returned success
is the save result alone. -/
def generate_report (env : RunEnv) : Bool × List String :=
  if env.loadOk = false then (false, ["Error: could not load data"])
  else
    let chart := add_budget_chart_run env.chartFails
    let success := env.saveOk
    (success,
      chart.2 ++
        (if success then ["Report saved successfully"]
         else ["Error saving document"]))

/-- The process exit code of main (rpt.py line 354). -/
def main_exit_code (env : RunEnv) : Nat :=
  if (generate_report env).1 then 0 else 1

/-- Where, relative to figure creation, chart rendering raises, if at
all. -/
inductive ChartOutcome where
  | ok
  | failBeforeFigure
  | failAfterFigure
deriving DecidableEq

/-- Figure bookkeeping of add_budget_chart: the plot call opens a figure,
plt.close() at rpt.py line 282 closes it on the success path only; the
except handler (lines 287-289) returns without closing anything. -/
def add_budget_chart_figures (openFigures : Nat) : ChartOutcome → Nat × Bool
  | .failBeforeFigure => (openFigures, false)
  | .failAfterFigure => (openFigures + 1, false)
  | .ok => (openFigures + 1 - 1, true)

/-- The concrete table of end-to-end scenario A. -/
def scenarioA : List Row :=
  [⟨"Design", 1000, 200⟩, ⟨"Build", 2000, 500⟩, ⟨"TOTALS", 3000, 700⟩]

/-- C1 counterexample: on a one-row table whose Budgeted value is zero the
per-row utilization value is NaN, not 0, while the overall rate does have
the zero guard and yields 0.  The per-row computation of rpt.py lines
195-196 has no zero guard, so the claim fails as stated. -/
theorem C1_counterexample :
    perRowUtilization [⟨"A", 0, 0⟩] = [PFloat.nan] ∧
    PFloat.nan ≠ PFloat.num 0 ∧
    utilization_rate [⟨"A", 0, 0⟩] = 0 := by
  refine ⟨?_, by decide, ?_⟩
  · norm_num [perRowUtilization, utilPercent, PFloat.sub, PFloat.div,
      PFloat.mul, PFloat.round1]
  · norm_num [utilization_rate, total_budgeted, total_remaining]

/-- C1 amended: the per-row utilization sequence has one value per row,
but a row with zero Budgeted yields NaN when Remaining is zero and a
signed infinity otherwise; there is no per-row zero guard. -/
theorem C1_corrected (rows : List Row) (i : Nat) (r : Row)
    (hget : rows[i]? = some r) (hz : r.budgeted = 0) :
    (perRowUtilization rows).length = rows.length ∧
    (perRowUtilization rows)[i]? =
      some (if r.remaining = 0 then PFloat.nan
            else if 0 < r.remaining then PFloat.ninf else PFloat.pinf) := by
  constructor
  · simp [perRowUtilization]
  · have hmap : (perRowUtilization rows)[i]? = some (utilPercent r) := by
      simp [perRowUtilization, List.getElem?_map, hget]
    rw [hmap]
    congr 1
    unfold utilPercent
    rw [hz]
    rcases lt_trichotomy r.remaining 0 with hlt | heq | hgt
    · have h1 : r.remaining ≠ 0 := ne_of_lt hlt
      have h2 : ¬ 0 < r.remaining := by linarith
      norm_num [PFloat.sub, PFloat.div, PFloat.mul, PFloat.round1,
        h1, h2, neg_eq_zero, neg_pos, hlt]
    · norm_num [PFloat.sub, PFloat.div, PFloat.mul, PFloat.round1, heq]
    · have h1 : r.remaining ≠ 0 := ne_of_gt hgt
      have h2 : ¬ r.remaining < 0 := by linarith
      norm_num [PFloat.sub, PFloat.div, PFloat.mul, PFloat.round1,
        h1, h2, neg_eq_zero, neg_pos, hgt, neg_neg_iff_pos]

/-- C1 witness: the amended statement instantiated on a concrete row with
zero Budgeted and nonzero Remaining. -/
theorem C1_corrected_witness :
    (perRowUtilization [⟨"A", 0, 5⟩]).length = ([⟨"A", 0, 5⟩] : List Row).length ∧
    (perRowUtilization [⟨"A", 0, 5⟩])[0]? =
      some (if (5 : ℚ) = 0 then PFloat.nan
            else if (0 : ℚ) < 5 then PFloat.ninf else PFloat.pinf) :=
  C1_corrected [⟨"A", 0, 5⟩] 0 ⟨"A", 0, 5⟩ rfl rfl

/-- C2 counterexample: the column sums of scenario A include the TOTALS
sentinel row, so the computed total budgeted is 6000 and the computed
total remaining is 1400, not the 3000 and 700 the claim states. -/
theorem C2_counterexample :
    total_budgeted scenarioA = 6000 ∧ total_budgeted scenarioA ≠ 3000 ∧
    total_remaining scenarioA = 1400 ∧ total_remaining scenarioA ≠ 700 := by
  have hb : total_budgeted scenarioA = 6000 := by
    norm_num [total_budgeted, scenarioA]
  have hr : total_remaining scenarioA = 1400 := by
    norm_num [total_remaining, scenarioA]
  refine ⟨hb, ?_, hr, ?_⟩
  · rw [hb]; norm_num
  · rw [hr]; norm_num

/-- C2 amended: on scenario A the code computes total budgeted 6000 and
total remaining 1400 (the sums include the TOTALS row), utilization rate
about 76.7 percent, highest utilization task Design at 80.0 percent and
lowest Build at 75.0 percent. -/
theorem C2_corrected :
    total_budgeted scenarioA = 6000 ∧
    total_remaining scenarioA = 1400 ∧
    roundQ1 (utilization_rate scenarioA) = 767 / 10 ∧
    add_key_points scenarioA =
      some (.derived ⟨utilization_rate scenarioA, "Design", PFloat.num 80,
        "Build", PFloat.num 75, 1400⟩) := by
  refine ⟨?_, ?_, ?_, ?_⟩
  · norm_num [total_budgeted, scenarioA]
  · norm_num [total_remaining, scenarioA]
  · norm_num [roundQ1, utilization_rate, total_budgeted, total_remaining, scenarioA]
    norm_num [round_eq]
  · have hnt : non_total_rows scenarioA =
        [⟨"Design", 1000, 200⟩, ⟨"Build", 2000, 500⟩] := by decide
    have hD : utilPercent ⟨"Design", 1000, 200⟩ = PFloat.num 80 := by
      norm_num [utilPercent, PFloat.sub, PFloat.div, PFloat.mul,
        PFloat.round1, roundQ1, round_eq]
    have hB : utilPercent ⟨"Build", 2000, 500⟩ = PFloat.num 75 := by
      norm_num [utilPercent, PFloat.sub, PFloat.div, PFloat.mul,
        PFloat.round1, roundQ1, round_eq]
    have hlen : (1 : Nat) < scenarioA.length := by decide
    have hrem : total_remaining scenarioA = 1400 := by
      norm_num [total_remaining, scenarioA]
    rw [add_key_points, if_pos hlen, hnt]
    norm_num [idxmaxFirst, idxminFirst, hD, hB, PFloat.isNaN, PFloat.ltb, hrem]

/-- C3 counterexample: with loading and saving succeeding and chart
rendering raising, generate_report still returns success and the exit
code is 0, even though the chart error was caught and reported; the
result of add_budget_chart is discarded at rpt.py line 316. -/
theorem C3_counterexample :
    (generate_report ⟨true, true, true⟩).1 = true ∧
    main_exit_code ⟨true, true, true⟩ = 0 ∧
    "Error creating chart" ∈ (generate_report ⟨true, true, true⟩).2 := by
  decide

/-- C3 amended: a chart rendering error is caught and reported, but the
run outcome ignores it: the run succeeds exactly when loading and saving
succeed. -/
theorem C3_corrected (env : RunEnv) :
    (generate_report env).1 = (env.loadOk && env.saveOk) ∧
    (env.loadOk = true → env.chartFails = true →
      "Error creating chart" ∈ (generate_report env).2) := by
  rcases env with ⟨l, c, s⟩
  cases l <;> cases c <;> cases s <;> decide

/-- C3 witness: the amended statement instantiated on the failing-chart
run, with its hypotheses discharged. -/
theorem C3_corrected_witness :
    "Error creating chart" ∈ (generate_report ⟨true, true, true⟩).2 :=
  (C3_corrected ⟨true, true, true⟩).2 rfl rfl

/-- C4 counterexample: with a caller-supplied name whose destination
already exists, the resolved path is exactly that existing path; no
versioning is applied on the caller-supplied branch of rpt.py line 27. -/
theorem C4_counterexample :
    resolve_output_file (fun s => s == "reports/custom.docx")
        "2025-01-25" "120000" (some "custom.docx") = "reports/custom.docx" ∧
    (fun s => s == "reports/custom.docx") "reports/custom.docx" = true := by
  decide

/-- Helper: whenever the probing loop returns a name that exists, that
name is the timestamp fallback; every other return site of the loop is a
candidate checked to be free. -/
theorem probe_candidates_exists_timestamp (ex : String → Bool)
    (stem ext ts : String) :
    ∀ fuel counter, ex (probe_candidates ex stem ext ts counter fuel) = true →
      probe_candidates ex stem ext ts counter fuel =
        stem ++ "_" ++ ts ++ ext := by
  intro fuel
  induction fuel with
  | zero => intro counter _; rfl
  | succ n ih =>
    intro counter h
    rw [probe_candidates] at h ⊢
    by_cases hc : ex (candName stem ext counter) = false
    · rw [if_pos hc] at h; exact absurd h (by simp [hc])
    · rw [if_neg hc] at h ⊢
      by_cases h100 : 100 < counter + 1
      · rw [if_pos h100]
      · rw [if_neg h100] at h ⊢
        exact ih (counter + 1) h

/-- C4 amended: versioning is applied only when no output name is
supplied; a caller-supplied name is placed in the reports directory
unchanged, and for the default dated name the resolved path can only be
an existing one in the pathological timestamp-fallback case. -/
theorem C4_corrected (ex : String → Bool) (today ts : String) :
    (∀ name, resolve_output_file ex today ts (some name) = "reports/" ++ name) ∧
    (ex (resolve_output_file ex today ts none) = true →
      resolve_output_file ex today ts none =
        ("reports/project_report_" ++ today) ++ "_" ++ ts ++ ".docx") := by
  constructor
  · intro name; rfl
  · intro h
    rw [resolve_output_file] at h ⊢
    rw [get_unique_filename] at h ⊢
    by_cases hb : ex (("reports/project_report_" ++ today) ++ ".docx") = false
    · rw [if_pos hb] at h; exact absurd h (by simp [hb])
    · rw [if_neg hb] at h ⊢
      exact probe_candidates_exists_timestamp ex _ ".docx" ts 99 2 h

/-- C4 witness: the amended statement instantiated on a filesystem where
every probed name exists, discharging the existence hypothesis. -/
theorem C4_corrected_witness :
    resolve_output_file (fun _ => true) "2025-01-25" "120000" none =
      ("reports/project_report_" ++ "2025-01-25") ++ "_" ++ "120000" ++ ".docx" :=
  (C4_corrected (fun _ => true) "2025-01-25" "120000").2 rfl

/-- C5 counterexample: a paragraph group that mixes bullet and non-bullet
lines but starts with a bullet marker is emitted as a bullet list with
the non-bullet line dropped, not as a single paragraph preserving the raw
text; rpt.py line 89 classifies the group by its first characters only. -/
theorem C5_counterexample :
    add_markdown_blocks "- a\nplain\n- b" = [Block.bullet "a", Block.bullet "b"] ∧
    add_markdown_blocks "- a\nplain\n- b" ≠
      [Block.paragraph "- a\nplain\n- b"] := by
  decide

/-- C5 amended: a nonempty group is emitted as a single paragraph of its
stripped raw text exactly when the stripped group does not start with a
bullet marker; when it does start with a marker, every emitted block is a
bullet item and any non-bullet lines in the group are dropped. -/
theorem C5_corrected (p : String) (h : pyStrip p ≠ "") :
    (parse_group p = [Block.paragraph (pyStrip p)] ↔
      ¬(pyStartsWith (pyStrip p) "- " = true ∨
        pyStartsWith (pyStrip p) "* " = true)) ∧
    ((pyStartsWith (pyStrip p) "- " = true ∨
        pyStartsWith (pyStrip p) "* " = true) →
      ∀ b ∈ parse_group p, ∃ t, b = Block.bullet t) := by
  simp only [parse_group]
  rw [if_neg h]
  by_cases hm : (pyStartsWith (pyStrip p) "- " || pyStartsWith (pyStrip p) "* ") = true
  · rw [if_pos hm]
    constructor
    · constructor
      · intro heq
        exfalso
        rcases hfl : (((splitLinesList (pyStrip p).data).map String.mk).filter isBulletLine)
          with _ | ⟨x, xs⟩
        · rw [hfl] at heq; simp at heq
        · rw [hfl] at heq; simp at heq
      · intro hnot
        exact absurd (by simpa using hm) hnot
    · intro _ b hb
      simp only [List.mem_map] at hb
      obtain ⟨l, _, rfl⟩ := hb
      exact ⟨_, rfl⟩
  · rw [if_neg hm]
    constructor
    · constructor
      · intro _
        simpa [not_or] using hm
      · intro _
        rfl
    · intro hcontra
      exact absurd (by simpa using hcontra) hm

/-- C5 witness: the amended statement instantiated on a plain one-line
group. -/
theorem C5_corrected_witness :
    (parse_group "hello" = [Block.paragraph (pyStrip "hello")] ↔
      ¬(pyStartsWith (pyStrip "hello") "- " = true ∨
        pyStartsWith (pyStrip "hello") "* " = true)) ∧
    ((pyStartsWith (pyStrip "hello") "- " = true ∨
        pyStartsWith (pyStrip "hello") "* " = true) →
      ∀ b ∈ parse_group "hello", ∃ t, b = Block.bullet t) :=
  C5_corrected "hello" (by decide)

/-- C6 counterexample: on a two-row table whose second row is the TOTALS
sentinel only one non-sentinel row remains, yet the code emits the
data-derived findings with that row as both the highest and the lowest
utilization task; the guards at rpt.py lines 198-200 test the full row
count and non-emptiness, not a two-row minimum after exclusion. -/
theorem C6_counterexample :
    (non_total_rows [⟨"A", 1000, 200⟩, ⟨"TOTALS", 1000, 200⟩]).length = 1 ∧
    add_key_points [⟨"A", 1000, 200⟩, ⟨"TOTALS", 1000, 200⟩] =
      some (.derived ⟨80, "A", PFloat.num 80, "A", PFloat.num 80, 400⟩) := by
  constructor
  · decide
  · have hnt : non_total_rows [⟨"A", 1000, 200⟩, ⟨"TOTALS", 1000, 200⟩] =
        [⟨"A", 1000, 200⟩] := by decide
    have hA : utilPercent ⟨"A", 1000, 200⟩ = PFloat.num 80 := by
      norm_num [utilPercent, PFloat.sub, PFloat.div, PFloat.mul,
        PFloat.round1, roundQ1, round_eq]
    have hlen : (1 : Nat) <
        ([⟨"A", 1000, 200⟩, ⟨"TOTALS", 1000, 200⟩] : List Row).length := by decide
    have hur : utilization_rate [⟨"A", 1000, 200⟩, ⟨"TOTALS", 1000, 200⟩] = 80 := by
      norm_num [utilization_rate, total_budgeted, total_remaining]
    have hrem : total_remaining [⟨"A", 1000, 200⟩, ⟨"TOTALS", 1000, 200⟩] = 400 := by
      norm_num [total_remaining]
    rw [add_key_points, if_pos hlen, hnt]
    norm_num [idxmaxFirst, idxminFirst, hA, PFloat.isNaN, hur, hrem]

/-- C6 amended: the generic fallback statements are emitted exactly when
the full table has at most one row or no non-sentinel row remains; with
at least two rows in the full table and at least one non-sentinel row the
code attempts the data-derived findings, even when only one non-sentinel
row remains. -/
theorem C6_corrected (rows : List Row) :
    add_key_points rows = some (.generic genericStatements) ↔
      (rows.length ≤ 1 ∨ non_total_rows rows = []) := by
  simp only [add_key_points]
  by_cases h1 : 1 < rows.length
  · simp only [if_pos h1]
    by_cases h2 : 0 < (non_total_rows rows).length
    · simp only [if_pos h2]
      have hne : non_total_rows rows ≠ [] := by
        intro hnil
        rw [hnil] at h2
        simp at h2
      have hrhs : ¬(rows.length ≤ 1 ∨ non_total_rows rows = []) := by
        rintro (hle | hnil)
        · omega
        · exact hne hnil
      rcases hmax : idxmaxFirst utilPercent (non_total_rows rows) with _ | hi
      · simp [hmax, hrhs]
      · rcases hmin : idxminFirst utilPercent (non_total_rows rows) with _ | lo
        · simp [hmax, hmin, hrhs]
        · simp [hmax, hmin, hrhs]
    · simp only [if_neg h2]
      have hnil : non_total_rows rows = [] := by
        cases hl : non_total_rows rows with
        | nil => rfl
        | cons a t => rw [hl] at h2; simp at h2
      simp [hnil]
  · simp only [if_neg h1]
    have hle : rows.length ≤ 1 := by omega
    simp [hle]

/-- Helper: when some candidate with index at most 100 is free and all
earlier probed candidates exist, the loop returns the first free
candidate. -/
theorem probe_candidates_first (ex : String → Bool) (stem ext ts : String)
    (n : Nat) (hn : n ≤ 100) (hfree : ex (candName stem ext n) = false) :
    ∀ fuel counter, counter + fuel = 101 → 2 ≤ counter → counter ≤ n →
      (∀ k, counter ≤ k → k < n → ex (candName stem ext k) = true) →
      probe_candidates ex stem ext ts counter fuel = candName stem ext n := by
  intro fuel
  induction fuel with
  | zero =>
    intro counter hsum h2 hcn hall
    omega
  | succ m ih =>
    intro counter hsum h2 hcn hall
    rw [probe_candidates]
    by_cases hceq : counter = n
    · subst hceq
      rw [if_pos hfree]
    · have hlt : counter < n := lt_of_le_of_ne hcn hceq
      have hex : ex (candName stem ext counter) = true := hall counter le_rfl hlt
      rw [if_neg (by simp [hex])]
      have h100 : ¬ 100 < counter + 1 := by omega
      rw [if_neg h100]
      exact ih (counter + 1) (by omega) (by omega) (by omega)
        (fun k hk1 hk2 => hall k (by omega) hk2)

/-- Helper: when all the candidates with indices 2 through 100 exist, the
loop returns the timestamp fallback, never probing index 101 or beyond. -/
theorem probe_candidates_exhaust (ex : String → Bool) (stem ext ts : String)
    (hall : ∀ k, 2 ≤ k → k ≤ 100 → ex (candName stem ext k) = true) :
    ∀ fuel counter, counter + fuel = 101 → 2 ≤ counter → counter ≤ 100 →
      probe_candidates ex stem ext ts counter fuel =
        stem ++ "_" ++ ts ++ ext := by
  intro fuel
  induction fuel with
  | zero =>
    intro counter hsum h2 hle
    omega
  | succ m ih =>
    intro counter hsum h2 hle
    rw [probe_candidates]
    have hex : ex (candName stem ext counter) = true := hall counter h2 hle
    rw [if_neg (by simp [hex])]
    by_cases h100 : 100 < counter + 1
    · rw [if_pos h100]
    · rw [if_neg h100]
      exact ih (counter + 1) (by omega) (by omega) (by omega)

/-- C7 counterexample: on a directory where the base name and candidates
2 through 100 exist but candidate 101 is free, the resolver returns the
timestamp fallback instead of the first free candidate, after only 99
failed candidate probes. -/
theorem C7_counterexample :
    get_unique_filename (fun s => !(s == "r/p_v101.docx")) "r/p" ".docx" "120000" =
      "r/p_120000.docx" ∧
    (fun s => !(s == "r/p_v101.docx")) "r/p_v101.docx" = false ∧
    "r/p_120000.docx" ≠ "r/p_v101.docx" ∧
    "r/p_v101.docx" = candName "r/p" ".docx" 101 := by
  decide

/-- C7 amended: the resolver returns the base path unchanged when it is
free; otherwise it returns the first free candidate among indices 2
through 100 only; once those 99 probes have all failed it falls back to
the timestamp name, even when candidate 101 would be free. -/
theorem C7_corrected (ex : String → Bool) (stem ext ts : String) :
    (ex (stem ++ ext) = false → get_unique_filename ex stem ext ts = stem ++ ext) ∧
    (∀ n, 2 ≤ n → n ≤ 100 → ex (stem ++ ext) = true →
      ex (candName stem ext n) = false →
      (∀ k, 2 ≤ k → k < n → ex (candName stem ext k) = true) →
      get_unique_filename ex stem ext ts = candName stem ext n) ∧
    ((∀ k, 2 ≤ k → k ≤ 100 → ex (candName stem ext k) = true) →
      ex (stem ++ ext) = true →
      get_unique_filename ex stem ext ts = stem ++ "_" ++ ts ++ ext) := by
  refine ⟨?_, ?_, ?_⟩
  · intro hb
    rw [get_unique_filename, if_pos hb]
  · intro n h2 h100 hbase hfree hall
    rw [get_unique_filename, if_neg (by simp [hbase])]
    exact probe_candidates_first ex stem ext ts n h100 hfree 99 2 rfl le_rfl h2
      (fun k hk1 hk2 => hall k hk1 hk2)
  · intro hall hbase
    rw [get_unique_filename, if_neg (by simp [hbase])]
    exact probe_candidates_exhaust ex stem ext ts hall 99 2 rfl le_rfl (by omega)

/-- C7 witness: the amended statement applied to a directory holding only
the base file, returning the first candidate. -/
theorem C7_corrected_witness :
    get_unique_filename (fun s => s == "b.docx") "b" ".docx" "t" =
      candName "b" ".docx" 2 :=
  (C7_corrected (fun s => s == "b.docx") "b" ".docx" "t").2.1 2
    (by decide) (by decide) (by decide) (by decide)
    (fun k hk1 hk2 => absurd (lt_of_le_of_lt hk1 hk2) (by decide))

/-- C8: the figure bookkeeping of add_budget_chart evaluated at the
failing input.  When rendering raises after the figure was created, the
open figure count after the call is one more than before, because the
except handler of rpt.py lines 287-289 returns without closing the
figure; on success the count is restored. -/
theorem C8_theorem :
    add_budget_chart_figures 0 ChartOutcome.failAfterFigure = (1, false) ∧
    (add_budget_chart_figures 0 ChartOutcome.failAfterFigure).1 ≠ 0 ∧
    add_budget_chart_figures 0 ChartOutcome.ok = (0, true) := by
  decide

/-- C9: loaded override content that is nonempty after stripping replaces
the default; an absent file and an unreadable file are both non-fatal and
fall back to the default content. -/
theorem C9_confirmed (s d : String) (hs : pyStrip s ≠ "") (hd : d ≠ "") :
    merged_content (FileState.content s) (some d) = some (pyStrip s) ∧
    merged_content FileState.absent (some d) = some d ∧
    merged_content FileState.unreadable (some d) = some d := by
  refine ⟨?_, ?_, ?_⟩
  · simp [merged_content, read_markdown_file, truthy, beq_iff_eq, hs]
  · simp [merged_content, read_markdown_file, truthy, beq_iff_eq, hd]
  · simp [merged_content, read_markdown_file, truthy, beq_iff_eq, hd]

/-- C9 witness: the statement instantiated on concrete override and
default texts. -/
theorem C9_confirmed_witness :
    merged_content (FileState.content "hello") (some "default") =
      some (pyStrip "hello") ∧
    merged_content FileState.absent (some "default") = some "default" ∧
    merged_content FileState.unreadable (some "default") = some "default" :=
  C9_confirmed "hello" "default" (by decide) (by decide)

/-- C10: a file whose content is only whitespace strips to the empty
string, and its merged result coincides with the merged result of an
absent file for every default, so the default content is used. -/
theorem C10_confirmed (s : String) (hs : pyStrip s = "") (dflt : Option String) :
    read_markdown_file (FileState.content s) = some "" ∧
    merged_content (FileState.content s) dflt =
      merged_content FileState.absent dflt := by
  constructor
  · simp [read_markdown_file, hs]
  · simp [merged_content, read_markdown_file, truthy, hs]

/-- C10 witness: the statement instantiated on a whitespace-only file. -/
theorem C10_confirmed_witness :
    read_markdown_file (FileState.content " \n ") = some "" ∧
    merged_content (FileState.content " \n ") (some "d") =
      merged_content FileState.absent (some "d") :=
  C10_confirmed " \n " (by decide) (some "d")

end AutoReport
